import Mathlib

/-!
Verification development for the shadowsocks relay core
(`src/relay/tcprelay/local.rs`, `src/relay/tcprelay/server.rs`,
`src/relay/udprelay/server.rs`, `src/crypto/stream.rs`).

Machine bytes are modelled as `Nat`, byte sequences as `List Nat`.
Fallible operations return `Option` or `Except`.  I/O performed by a
code path is made explicit as a list of events, so that statements of
the form "no outbound connect/send is issued" become statements about
the absence of events in the list.

Support modules of the repository that are not among the given sources
(`relay/socks5.rs`, `crypto/cipher.rs`, `relay/dns_resolver.rs`,
`relay/loadbalancing`, `relay/tcprelay/stream.rs`,
`relay/udprelay/crypto_io.rs`) are modelled from the specification;
each such definition carries a doc comment saying so.
-/

namespace Shadowsocks

/-- IP address: the `ip::IpAddr` used by the relay.  An IPv6 address is
kept as its 16 wire bytes. -/
inductive IpAddr where
  | v4 (a b c d : Nat)
  | v6 (bytes : List Nat)
deriving DecidableEq

/-- `std::net::SocketAddr`, reduced to the fields the relay reads:
the IP and the port. -/
structure SocketAddr where
  ip : IpAddr
  port : Nat
deriving DecidableEq

/-- Modelled from the spec: `relay::socks5::Address`, a tagged union of
a literal socket address and a domain name, carried with its length byte and port
(spec section 3 and section 6.3).  The domain name is kept as its raw
bytes. -/
inductive Address where
  | socketAddress (s : SocketAddr)
  | domainNameAddress (name : List Nat) (port : Nat)
deriving DecidableEq

/-- Big-endian 16-bit port encoding (spec section 6.3). -/
def encodePort (p : Nat) : List Nat :=
  [p / 256 % 256, p % 256]

/-- Modelled from the spec: the wire encoding of `socks5::Address`
(spec section 6.3): ATYP 0x01 + 4 IPv4 bytes + port, ATYP 0x03 +
length byte + name + port, ATYP 0x04 + 16 IPv6 bytes + port. -/
def encodeAddress : Address → List Nat
  | .socketAddress ⟨.v4 a b c d, p⟩ => 1 :: a :: b :: c :: d :: encodePort p
  | .socketAddress ⟨.v6 bs, p⟩ => 4 :: (bs ++ encodePort p)
  | .domainNameAddress name p => 3 :: name.length :: (name ++ encodePort p)

/-- Modelled from the spec: `socks5::Address::read_from` over an
in-memory byte cursor.  Returns the parsed address together with the
number of bytes consumed (the cursor position used by the UDP relay
to split header from payload). -/
def readAddress : List Nat → Option (Address × Nat)
  | 1 :: a :: b :: c :: d :: ph :: pl :: _ =>
    some (.socketAddress ⟨.v4 a b c d, ph * 256 + pl⟩, 7)
  | 3 :: len :: rest =>
    (match rest.drop len with
     | ph :: pl :: _ =>
       some (.domainNameAddress (rest.take len) (ph * 256 + pl), len + 4)
     | _ => none)
  | 4 :: rest =>
    (match rest.drop 16 with
     | ph :: pl :: _ => some (.socketAddress ⟨.v6 (rest.take 16), ph * 256 + pl⟩, 19)
     | _ => none)
  | _ => none

/-- Wire well-formedness of an address: the port fits in 16 bits and an
IPv6 address has its 16 bytes. -/
def wfAddress : Address → Bool
  | .socketAddress ⟨.v4 _ _ _ _, p⟩ => p < 65536
  | .socketAddress ⟨.v6 bs, p⟩ => bs.length = 16 && p < 65536
  | .domainNameAddress _ p => p < 65536

/-! ## Server-role destination resolution (`relay/tcprelay/server.rs`) -/

/-- I/O error kinds the relay distinguishes. -/
inductive IoErr where
  | forbidden
  | resolveFailed
  | timedOut
  | cryptoFailed
  | parseFailed
  | authUnsupported
  | malformed
deriving DecidableEq

/-- The DNS environment: a name and a port yield the list of answers
`to_socket_addrs` would return. -/
def Dns : Type := List Nat → Nat → List SocketAddr

/-- `TcpRelayServer::resolve_address`: a literal socket address passes
through unchanged; a domain name is resolved on the worker pool and the
first answer is taken, with an error when there is none. -/
def resolve_address (dns : Dns) : Address → Except IoErr SocketAddr
  | .socketAddress s => .ok s
  | .domainNameAddress dname p =>
    match (dns dname p).head? with
    | some a => .ok a
    | none => .error .resolveFailed

/-- `TcpRelayServer::resolve_remote`: resolve, then fail with a
Forbidden error when the resolved IP is in the forbidden set. -/
def resolve_remote (dns : Dns) (forbidden_ip : List IpAddr) (addr : Address) :
    Except IoErr SocketAddr :=
  match resolve_address dns addr with
  | .error e => .error e
  | .ok a => if a.ip ∈ forbidden_ip then .error .forbidden else .ok a

/-- Outbound network actions of the server role. -/
inductive NetEvent where
  | connectTcp (a : SocketAddr)
  | sendUdp (a : SocketAddr) (payload : List Nat)
deriving DecidableEq

/-- `TcpRelayServer::connect_remote`: `resolve_remote` chained with
`TcpStream::connect` on the resolved address.  The second component
lists the outbound connect actions the chain issues: the connect future
runs only after `resolve_remote` succeeds. -/
def connect_remote (dns : Dns) (forbidden_ip : List IpAddr) (addr : Address) :
    Except IoErr SocketAddr × List NetEvent :=
  match resolve_remote dns forbidden_ip addr with
  | .error e => (.error e, [])
  | .ok a => (.ok a, [NetEvent.connectTcp a])

/-! ## Server-role UDP relay (`relay/udprelay/server.rs`) -/

/-- Modelled from the spec: `relay::dns_resolver::resolve` with the
check-forbidden flag set, as called by the UDP relay for domain-name
targets (spec section 4.3): the first DNS answer must be used unless it
falls in the forbidden-IP set, in which case resolution fails with a
Forbidden error. -/
def resolveCheckForbidden (config_forbidden : List IpAddr) (dns : Dns)
    (dname : List Nat) (p : Nat) : Except IoErr SocketAddr :=
  match (dns dname p).head? with
  | none => .error .resolveFailed
  | some a => if a.ip ∈ config_forbidden then .error .forbidden else .ok a

/-- `resolve_remote_addr` in `relay/udprelay/server.rs`: a literal
socket address is rejected directly when its IP is forbidden; a domain
name goes through the checking resolver. -/
def resolve_remote_addr (config_forbidden : List IpAddr) (dns : Dns) :
    Address → Except IoErr SocketAddr
  | .socketAddress s =>
    if s.ip ∈ config_forbidden then .error .forbidden else .ok s
  | .domainNameAddress dname p => resolveCheckForbidden config_forbidden dns dname p

/-- Observable actions of one UDP datagram handler task. -/
inductive UdpEvent where
  | sendToTarget (a : SocketAddr) (body : List Nat)
  | awaitReply (deadline : Nat)
  | sendBack (dst : SocketAddr) (payload : List Nat) (deadline : Nat)
  | logTimeout
  | logError (e : IoErr)
deriving DecidableEq

/-- The per-datagram task body of `listen` in `relay/udprelay/server.rs`:
decrypt the packet, parse a SOCKS5 Address from the front and keep the
remainder as the body, resolve the target (with the forbidden check),
send the body to the target from an ephemeral socket, await at most one
reply within the deadline `timeout.unwrap_or(5 s)`, and on a reply send
`encrypt(Address ++ reply)` back to the source under the same deadline.
`dec` and `enc` stand for `decrypt_payload`/`encrypt_payload` of the
missing `crypto_io` module; `replyOpt` is the reply datagram received
before the deadline, if any.  Every error ends the spawned task with a
log record. -/
def udpHandleDatagram (dec : List Nat → Option (List Nat))
    (enc : List Nat → List Nat)
    (config_forbidden : List IpAddr) (dns : Dns) (timeout : Option Nat)
    (pkt : List Nat) (src : SocketAddr)
    (replyOpt : Option (List Nat × Nat)) : List UdpEvent :=
  match dec pkt with
  | none => [.logError .cryptoFailed]
  | some payload =>
    match readAddress payload with
    | none => [.logError .parseFailed]
    | some (addr, headerLen) =>
      let body := payload.drop headerLen
      match resolve_remote_addr config_forbidden dns addr with
      | .error e => [.logError e]
      | .ok target =>
        let dl := timeout.getD 5
        UdpEvent.sendToTarget target body ::
        UdpEvent.awaitReply dl ::
        (match replyOpt with
         | none => [.logTimeout, .logError .timedOut]
         | some (buf, n) =>
           [.sendBack src (enc (encodeAddress addr ++ buf.take n)) dl])

/-! ## SOCKS5 handshake on the local role (`relay/tcprelay/local.rs`) -/

/-- `socks5::SOCKS5_AUTH_METHOD_NONE` (no authentication). -/
def SOCKS5_AUTH_METHOD_NONE : Nat := 0

/-- `socks5::SOCKS5_AUTH_METHOD_NOT_ACCEPTABLE`. -/
def SOCKS5_AUTH_METHOD_NOT_ACCEPTABLE : Nat := 255

/-- Modelled from the spec: `socks5::HandshakeRequest::read_from`
(spec section 4.2): the wire form is VER=0x05, NMETHODS, then NMETHODS
method bytes; a version mismatch or a short read is a protocol error.
Returns the method list and the unread remainder of the stream. -/
def handshakeRequestReadFrom : List Nat → Except IoErr (List Nat × List Nat)
  | ver :: n :: rest =>
    if ver = 5 then
      if n ≤ rest.length then .ok (rest.take n, rest.drop n)
      else .error .malformed
    else .error .malformed
  | _ => .error .malformed

/-- `TcpRelayLocal::do_handshake`: read the handshake request; when the
no-auth method is absent reply with method 0xFF and fail, otherwise
reply with method 0x00 and succeed.  The second component is the bytes
of the handshake response written back to the client (the response wire
form VER, METHOD is modelled from spec section 4.2). -/
def do_handshake (input : List Nat) : Except IoErr Unit × List Nat :=
  match handshakeRequestReadFrom input with
  | .error e => (.error e, [])
  | .ok (methods, _) =>
    if SOCKS5_AUTH_METHOD_NONE ∈ methods then
      (.ok (), [5, SOCKS5_AUTH_METHOD_NONE])
    else
      (.error .authUnsupported, [5, SOCKS5_AUTH_METHOD_NOT_ACCEPTABLE])

/-- How the session handler of the local relay leaves its handshake
stage. -/
inductive SessionOutcome where
  | panicked
  | continuedToRequest
deriving DecidableEq

/-- The handshake stage of `TcpRelayLocal::handle_client`: the result
of `do_handshake` is consumed with `unwrap_or_else` into an explicit
panic, so any handshake error unwinds the handler instead of returning.
The second component is the bytes written to the client. -/
def handle_client_handshake (input : List Nat) : SessionOutcome × List Nat :=
  match do_handshake input with
  | (.error _, w) => (.panicked, w)
  | (.ok _, w) => (.continuedToRequest, w)

/-! ## Duplex copy shutdown behavior (`relay/tcprelay/local.rs`) -/

/-- The subset of `std::io::ErrorKind` the relay inspects. -/
inductive ErrorKind where
  | connectionRefused
  | connectionReset
  | connectionAborted
  | brokenPipe
  | notConnected
  | timedOut
  | unexpectedEof
  | other
deriving DecidableEq

/-- Result of one `io::copy` direction. -/
inductive CopyResult where
  | ok (bytes : Nat)
  | err (k : ErrorKind)
deriving DecidableEq

/-- The two sockets of a local-role session. -/
inductive Sock where
  | clientSock
  | remoteSock
deriving DecidableEq

/-- Which half of a socket a shutdown call affects. -/
inductive ShutdownHow where
  | readHalf
  | writeHalf
  | bothHalves
deriving DecidableEq

/-- One `shutdown` call. -/
structure ShutdownAction where
  sock : Sock
  how : ShutdownHow
deriving DecidableEq

/-- The shutdown calls issued by the client-to-remote copy task of
`TcpRelayLocal::handle_client` when its `io::copy` finishes: on success
nothing, on error `Shutdown::Both` first on the remote stream under the
encrypting writer and then on the client stream. -/
def relay_l2r_shutdowns : CopyResult → List ShutdownAction
  | .ok _ => []
  | .err _ => [⟨.remoteSock, .bothHalves⟩, ⟨.clientSock, .bothHalves⟩]

/-- The shutdown calls issued by the remote-to-client copy task of
`TcpRelayLocal::handle_client` when its `io::copy` finishes: on success
nothing, on error `Shutdown::Both` first on the remote stream under the
decrypting reader and then on the client stream. -/
def relay_r2l_shutdowns : CopyResult → List ShutdownAction
  | .ok _ => []
  | .err _ => [⟨.remoteSock, .bothHalves⟩, ⟨.clientSock, .bothHalves⟩]

/-- The shutdown calls the specification claims for the finished
client-to-remote direction: write half of the destination (remote) and
read half of the source (client), regardless of how the copy ended. -/
def claimed_l2r_shutdowns : CopyResult → List ShutdownAction :=
  fun _ => [⟨.remoteSock, .writeHalf⟩, ⟨.clientSock, .readHalf⟩]

/-! ## Local-role accept loop (`relay/tcprelay/local.rs`) -/

/-- The fields of `config::ServerConfig` the accept loop reads. -/
structure ServerCfg where
  addr : List Nat
  port : Nat
deriving DecidableEq

/-- Modelled from the spec: the round-robin load balancer
(spec section 4.4): an ordered server list and a monotonically
incremented cursor. -/
structure RoundRobin where
  servers : List ServerCfg
  index : Nat
deriving DecidableEq

/-- Modelled from the spec: `pick_server` returns the entry at
`cursor mod len` and post-increments the cursor. -/
def RoundRobin.pick_server (rr : RoundRobin) : Option ServerCfg × RoundRobin :=
  (rr.servers.get? (rr.index % rr.servers.length),
   { rr with index := rr.index + 1 })

/-- Modelled from the spec: `total` is the length of the server list. -/
def RoundRobin.total (rr : RoundRobin) : Nat := rr.servers.length

/-- The `cached_proxy` map of resolved backend addresses, as an
association list. -/
def cacheLookup (cache : List (List Nat × SocketAddr)) (k : List Nat) :
    Option SocketAddr :=
  (cache.find? (fun e => e.1 == k)).map (fun e => e.2)

/-- How one accepted local connection leaves the backend-selection
loop. -/
inductive AcceptOutcome where
  | spawned (server_addr : SocketAddr)
  | panicked
deriving DecidableEq

/-- Backend DNS environment of the accept loop: `lookup_host` reduced
to its first answer, when there is one. -/
def BackendDns : Type := List Nat → Option SocketAddr

/-- The retry loop inside `TcpRelayLocal::run` for one accepted
connection, with the remaining iteration count explicit: pick a server,
resolve its address through the cache or `lookup_host`, and on success
spawn the handler on the resolved IP with the configured port; a
resolution failure moves on to the next pick.  When the iterations are
exhausted the loop falls through to an explicit panic. -/
def acceptLoop (dns : BackendDns) (cache : List (List Nat × SocketAddr)) :
    RoundRobin → Nat → AcceptOutcome
  | _, 0 => .panicked
  | rr, n + 1 =>
    match rr.pick_server with
    | (none, rrNext) => acceptLoop dns cache rrNext n
    | (some cfg, rrNext) =>
      match cacheLookup cache cfg.addr with
      | some a => .spawned ⟨a.ip, cfg.port⟩
      | none =>
        match dns cfg.addr with
        | some a => .spawned ⟨a.ip, cfg.port⟩
        | none => acceptLoop dns cache rrNext n

/-- One accepted connection in `TcpRelayLocal::run`: the retry loop
runs `for _ in 0..server_load_balancer.total()`. -/
def accept_one (dns : BackendDns) (cache : List (List Nat × SocketAddr))
    (rr : RoundRobin) : AcceptOutcome :=
  acceptLoop dns cache rr rr.total

/-! ## Local-role CONNECT path (`relay/tcprelay/local.rs`) -/

/-- Modelled from the spec: the SOCKS5 reply codes used by the relay
(spec section 4.2). -/
inductive Reply where
  | succeeded
  | generalFailure
  | networkUnreachable
  | hostUnreachable
  | connectionRefused
  | commandNotSupported
  | addressTypeNotSupported
deriving DecidableEq

/-- Modelled from the spec: the numeric reply codes of RFC 1928
(spec section 4.2). -/
def replyCode : Reply → Nat
  | .succeeded => 0
  | .generalFailure => 1
  | .networkUnreachable => 3
  | .hostUnreachable => 4
  | .connectionRefused => 5
  | .commandNotSupported => 7
  | .addressTypeNotSupported => 8

/-- Modelled from the spec: the wire form of
`socks5::TcpResponseHeader::write_to` (spec section 4.2):
VER, REPLY, RSV=0, then the address. -/
def encodeTcpResponse (r : Reply) (a : Address) : List Nat :=
  5 :: replyCode r :: 0 :: encodeAddress a

/-- `socks5::Command`. -/
inductive Command where
  | tcpConnect
  | tcpBind
  | udpAssociate
deriving DecidableEq

/-- Modelled from the spec: the command byte of the TCP request header
(spec section 4.2). -/
def decodeCommand (b : Nat) : Option Command :=
  if b = 1 then some .tcpConnect
  else if b = 2 then some .tcpBind
  else if b = 3 then some .udpAssociate
  else none

/-- Modelled from the spec: `socks5::TcpRequestHeader::read_from`
(spec section 4.2): VER=0x05, CMD, RSV, then an address; a version
mismatch or malformed field is an error. -/
def tcpRequestReadFrom (input : List Nat) : Option (Command × Address) :=
  match input with
  | ver :: cmd :: _rsv :: rest =>
    if ver = 5 then
      match decodeCommand cmd, readAddress rest with
      | some c, some (a, _) => some (c, a)
      | _, _ => none
    else none
  | _ => none

/-- A write performed by the CONNECT path, tagged with its
destination stream. -/
inductive WriteEvent where
  | toClient (bytes : List Nat)
  | toRemote (bytes : List Nat)
deriving DecidableEq

/-- Result of `TcpStream::connect` to the picked backend. -/
inductive ConnectResult where
  | connOk
  | connErr (k : ErrorKind)
deriving DecidableEq

/-- Whether the session handler went on to spawn the two relay copies
or returned early. -/
inductive SessionCont where
  | closedNoRelay
  | relaying
deriving DecidableEq

/-- The CONNECT arm of `TcpRelayLocal::handle_client` from the backend
connect onward.  On a connect error the client receives a response
whose reply code depends on the error kind and the handler returns
without relaying.  On success the handler writes the fresh IV in the
clear to the remote stream, replies Succeeded (with the socket name) to
the client, and then writes the destination address as the first
payload through the encrypting writer; `enc` is the stream encryptor
built over the same IV (the `EncryptedWriter` of the missing
`tcprelay/stream.rs`, modelled from spec section 4.5 as the transform
of each written chunk). -/
def handle_connect (enc : List Nat → List Nat) (iv : List Nat)
    (sockname : SocketAddr) (addr : Address) (res : ConnectResult) :
    SessionCont × List WriteEvent :=
  match res with
  | .connErr k =>
    match k with
    | .connectionAborted | .connectionReset | .connectionRefused =>
      (.closedNoRelay, [.toClient (encodeTcpResponse .hostUnreachable addr)])
    | _ =>
      (.closedNoRelay, [.toClient (encodeTcpResponse .networkUnreachable addr)])
  | .connOk =>
    (.relaying,
     [.toRemote iv,
      .toClient (encodeTcpResponse .succeeded (.socketAddress sockname)),
      .toRemote (enc (encodeAddress addr))])

/-- The bytes that reach the remote stream, in order. -/
def remoteBytes (evs : List WriteEvent) : List Nat :=
  (evs.filterMap fun e =>
    match e with
    | .toRemote b => some b
    | .toClient _ => none).foldr (· ++ ·) []

/-- `handle_client` from the request header to the CONNECT arm: parse
the TCP request header from the client bytes and, for a CONNECT
command, run the connect path on the parsed destination address. -/
def handle_client_connect (enc : List Nat → List Nat) (iv : List Nat)
    (sockname : SocketAddr) (input : List Nat) (res : ConnectResult) :
    Option (SessionCont × List WriteEvent) :=
  match tcpRequestReadFrom input with
  | some (.tcpConnect, addr) => some (handle_connect enc iv sockname addr res)
  | _ => none

/-! ## Stream cipher factory (`crypto/stream.rs`) -/

/-- `crypto::CryptoMode`. -/
inductive CryptoMode where
  | encrypt
  | decrypt
deriving DecidableEq

/-- Modelled from the spec: `crypto::cipher::CipherCategory` of the
missing `crypto/cipher.rs`.  The spec non-goals record that AEAD
ciphers exist in the wider protocol but are unsupported here, so the
category enumeration distinguishes stream from AEAD. -/
inductive CipherCategory where
  | stream
  | aead
deriving DecidableEq

/-- Modelled from the spec: `crypto::cipher::CipherType` of the missing
`crypto/cipher.rs`.  The stream methods are the families of spec
section 3: table, dummy, RC4-MD5, ChaCha20, Salsa20, and the
OpenSSL-backed block-cipher stream modes; one AEAD method stands for
the non-stream category the factory asserts against. -/
inductive CipherType where
  | table
  | dummy
  | rc4Md5
  | chacha20
  | salsa20
  | aes128Cfb
  | aes192Cfb
  | aes256Cfb
  | aes128Ctr
  | aes256Ctr
  | cast5Cfb
  | bfCfb
  | desCfb
  | rc2Cfb
  | seedCfb
  | camellia128Cfb
  | aes256Gcm
deriving DecidableEq

/-- Modelled from the spec: the category of each method; every method
of this core is a stream cipher, the AEAD method is the non-stream
case. -/
def CipherType.category : CipherType → CipherCategory
  | .aes256Gcm => .aead
  | _ => .stream

/-- `table::TableCipher::new(key, mode)`: the table cipher keeps only
its key-derived permutation and direction; it takes no IV. -/
structure TableCipher where
  key : List Nat
  mode : CryptoMode
deriving DecidableEq

/-- `dummy::DummyCipher`: the identity transform, no state. -/
structure DummyCipher where
deriving DecidableEq

/-- `rc4_md5::Rc4Md5Cipher::new(key, iv, mode)`. -/
structure Rc4Md5Cipher where
  key : List Nat
  iv : List Nat
  mode : CryptoMode
deriving DecidableEq

/-- `openssl::OpenSSLCipher::new(t, key, iv, mode)`. -/
structure OpenSSLCipher where
  t : CipherType
  key : List Nat
  iv : List Nat
  mode : CryptoMode
deriving DecidableEq

/-- `crypto::CryptoCipher::new(t, key, iv)`. -/
structure CryptoCipher where
  t : CipherType
  key : List Nat
  iv : List Nat
deriving DecidableEq

/-- `StreamCipherVariant`: the closed variant enumeration over the
concrete cipher implementations. -/
inductive StreamCipherVariant where
  | tableCipher (c : TableCipher)
  | dummyCipher (c : DummyCipher)
  | rc4Md5Cipher (c : Rc4Md5Cipher)
  | openSSLCipher (c : OpenSSLCipher)
  | cryptoCipher (c : CryptoCipher)
deriving DecidableEq

/-- The arm of a `StreamCipherVariant` value. -/
inductive CipherArm where
  | tableArm
  | dummyArm
  | rc4Md5Arm
  | opensslArm
  | cryptoArm
deriving DecidableEq

/-- Which arm a variant value lives in. -/
def StreamCipherVariant.arm : StreamCipherVariant → CipherArm
  | .tableCipher _ => .tableArm
  | .dummyCipher _ => .dummyArm
  | .rc4Md5Cipher _ => .rc4Md5Arm
  | .openSSLCipher _ => .opensslArm
  | .cryptoCipher _ => .cryptoArm

/-- `new_stream` of `crypto/stream.rs`: asserts that the method is of
the stream category (`none` models the assertion failure), then
dispatches on the method: Table and Dummy build their ciphers without
the IV, ChaCha20 and Salsa20 build a `CryptoCipher`, RC4-MD5 builds an
`Rc4Md5Cipher`, and every other stream method builds an
`OpenSSLCipher`. -/
def new_stream (t : CipherType) (key iv : List Nat) (mode : CryptoMode) :
    Option StreamCipherVariant :=
  if t.category = CipherCategory.stream then
    some
      (match t with
       | .table => .tableCipher ⟨key, mode⟩
       | .dummy => .dummyCipher ⟨⟩
       | .chacha20 | .salsa20 => .cryptoCipher ⟨t, key, iv⟩
       | .rc4Md5 => .rc4Md5Cipher ⟨key, iv, mode⟩
       | _ => .openSSLCipher ⟨t, key, iv, mode⟩)
  else none

/-- The arm the claim assigns to each stream method. -/
def claimedArmOf : CipherType → CipherArm
  | .table => .tableArm
  | .dummy => .dummyArm
  | .chacha20 | .salsa20 => .cryptoArm
  | .rc4Md5 => .rc4Md5Arm
  | _ => .opensslArm

/-! ## Theorems -/

theorem encodePort_eq (p : Nat) (h : p < 65536) :
    (p / 256 % 256) * 256 + p % 256 = p := by
  omega

/-- Round trip of the address codec: parsing an encoded address followed
by arbitrary trailing bytes recovers the address and consumes exactly
the encoding. -/
theorem readAddress_encodeAddress (a : Address) (rest : List Nat)
    (h : wfAddress a = true) :
    readAddress (encodeAddress a ++ rest) = some (a, (encodeAddress a).length) := by
  match a with
  | .socketAddress ⟨.v4 x y z w, p⟩ =>
    simp only [wfAddress, decide_eq_true_eq] at h
    simp [encodeAddress, encodePort, readAddress, encodePort_eq p h]
  | .socketAddress ⟨.v6 bs, p⟩ =>
    simp only [wfAddress, Bool.and_eq_true, decide_eq_true_eq] at h
    obtain ⟨hlen, hp⟩ := h
    simp only [encodeAddress, encodePort, List.cons_append, List.append_assoc]
    rw [readAddress]
    have hdrop : (bs ++ ([p / 256 % 256, p % 256] ++ rest)).drop 16 =
        [p / 256 % 256, p % 256] ++ rest := by
      rw [← hlen, List.drop_left]
    have htake : (bs ++ ([p / 256 % 256, p % 256] ++ rest)).take 16 = bs := by
      rw [← hlen, List.take_left]
    simp only [hdrop, htake, List.cons_append, List.nil_append]
    simp [encodePort_eq p hp, hlen]
  | .domainNameAddress name p =>
    simp only [wfAddress, decide_eq_true_eq] at h
    simp only [encodeAddress, encodePort, List.cons_append, List.append_assoc]
    rw [readAddress]
    have hdrop : (name ++ ([p / 256 % 256, p % 256] ++ rest)).drop name.length =
        [p / 256 % 256, p % 256] ++ rest := List.drop_left name _
    have htake : (name ++ ([p / 256 % 256, p % 256] ++ rest)).take name.length = name :=
      List.take_left name _
    simp only [hdrop, htake, List.cons_append, List.nil_append]
    simp [encodePort_eq p h]

/-- When the plain resolution of an address yields a forbidden IP, the
UDP resolver of `relay/udprelay/server.rs` fails with the Forbidden
error. -/
theorem resolve_remote_addr_forbidden (config_forbidden : List IpAddr)
    (dns : Dns) (addr : Address) (a : SocketAddr)
    (h1 : resolve_address dns addr = .ok a) (h2 : a.ip ∈ config_forbidden) :
    resolve_remote_addr config_forbidden dns addr = .error .forbidden := by
  cases addr with
  | socketAddress s =>
    have hsa : s = a := by
      simpa [resolve_address] using h1
    subst hsa
    simp [resolve_remote_addr, h2]
  | domainNameAddress dname p =>
    cases hh : (dns dname p).head? with
    | none => simp [resolve_address, hh] at h1
    | some b =>
      have hba : b = a := by
        simpa [resolve_address, hh] using h1
      subst hba
      simp [resolve_remote_addr, resolveCheckForbidden, hh, h2]

/-- C1: for every relayed request on the server role, when resolution
of the destination (identity for literal addresses, DNS first answer
for domain names) yields an IP in the forbidden set, the request fails
with the Forbidden error and no outbound TCP connect (TCP relay) and no
outbound UDP send (UDP relay) is issued: the event lists are free of
outbound actions. -/
theorem c1_forbidden_ip_blocks_outbound :
    (∀ (dns : Dns) (forbidden_ip : List IpAddr) (addr : Address) (a : SocketAddr),
      resolve_address dns addr = .ok a → a.ip ∈ forbidden_ip →
      connect_remote dns forbidden_ip addr = (.error .forbidden, [])) ∧
    (∀ (dec : List Nat → Option (List Nat)) (enc : List Nat → List Nat)
       (forbidden_ip : List IpAddr) (dns : Dns) (timeout : Option Nat)
       (pkt : List Nat) (src : SocketAddr) (replyOpt : Option (List Nat × Nat))
       (payload : List Nat) (addr : Address) (n : Nat) (a : SocketAddr),
      dec pkt = some payload → readAddress payload = some (addr, n) →
      resolve_address dns addr = .ok a → a.ip ∈ forbidden_ip →
      udpHandleDatagram dec enc forbidden_ip dns timeout pkt src replyOpt =
        [.logError .forbidden]) := by
  constructor
  · intro dns forbidden_ip addr a h1 h2
    unfold connect_remote resolve_remote
    rw [h1]
    simp [h2]
  · intro dec enc forbidden_ip dns timeout pkt src replyOpt payload addr n a h1 h2 h3 h4
    simp only [udpHandleDatagram, h1, h2,
      resolve_remote_addr_forbidden forbidden_ip dns addr a h3 h4]

/-- C1 witness: a literal destination 10.0.0.1:80 with 10.0.0.1
forbidden is refused by both relays with no outbound action. -/
theorem c1_forbidden_ip_blocks_outbound_witness :
    connect_remote (fun _ _ => []) [IpAddr.v4 10 0 0 1]
        (Address.socketAddress ⟨IpAddr.v4 10 0 0 1, 80⟩) =
      (.error .forbidden, []) ∧
    udpHandleDatagram (fun _ => some [1, 10, 0, 0, 1, 0, 80, 42])
        (fun bs => bs) [IpAddr.v4 10 0 0 1] (fun _ _ => []) none
        [9] ⟨IpAddr.v4 127 0 0 1, 5000⟩ none =
      [.logError .forbidden] := by
  constructor
  · exact c1_forbidden_ip_blocks_outbound.1 (fun _ _ => []) [IpAddr.v4 10 0 0 1]
      (Address.socketAddress ⟨IpAddr.v4 10 0 0 1, 80⟩) ⟨IpAddr.v4 10 0 0 1, 80⟩
      rfl (by decide)
  · exact c1_forbidden_ip_blocks_outbound.2 (fun _ => some [1, 10, 0, 0, 1, 0, 80, 42])
      (fun bs => bs) [IpAddr.v4 10 0 0 1] (fun _ _ => []) none [9]
      ⟨IpAddr.v4 127 0 0 1, 5000⟩ none [1, 10, 0, 0, 1, 0, 80, 42]
      (Address.socketAddress ⟨IpAddr.v4 10 0 0 1, 80⟩) 7 ⟨IpAddr.v4 10 0 0 1, 80⟩
      rfl (by decide) rfl (by decide)

/-- C2 (code-bug record): `TcpRelayLocal::handle_client` consumes the
result of `do_handshake` with `unwrap_or_else` into an explicit panic,
so a SOCKS5 protocol violation in the handshake makes the handler
unwind rather than return a session-local error: the request
05 01 02 (method list without no-auth) panics after the 05 FF response
is written, and a version-mismatched request 04 01 00 panics with
nothing written. -/
theorem c2_handshake_violation_panics :
    handle_client_handshake [5, 1, 2] = (SessionOutcome.panicked, [5, 255]) ∧
    handle_client_handshake [4, 1, 0] = (SessionOutcome.panicked, []) := by
  decide

/-- C3 counterexample: when the client-to-remote copy of
`TcpRelayLocal::handle_client` terminates cleanly, the code issues no
shutdown at all, not the write-half/read-half pair the claim states;
and even the error path never issues a write-half-only shutdown. -/
theorem c3_counterexample_no_half_close :
    relay_l2r_shutdowns (CopyResult.ok 0) ≠ claimed_l2r_shutdowns (CopyResult.ok 0) ∧
    ShutdownAction.mk Sock.remoteSock ShutdownHow.writeHalf ∉
      relay_l2r_shutdowns (CopyResult.err ErrorKind.brokenPipe) := by
  decide

/-- C3 amended: the two directional copies terminate independently, but
no half-close is performed: a copy that ends cleanly shuts down neither
socket, while a copy that ends with an error shuts down both sockets in
both directions (which also tears down the opposite direction). -/
theorem c3_amended_shutdown_behavior :
    ∀ (n : Nat) (k : ErrorKind),
      relay_l2r_shutdowns (.ok n) = [] ∧
      relay_r2l_shutdowns (.ok n) = [] ∧
      relay_l2r_shutdowns (.err k) =
        [⟨.remoteSock, .bothHalves⟩, ⟨.clientSock, .bothHalves⟩] ∧
      relay_r2l_shutdowns (.err k) =
        [⟨.remoteSock, .bothHalves⟩, ⟨.clientSock, .bothHalves⟩] :=
  fun _ _ => ⟨rfl, rfl, rfl, rfl⟩

/-- C4 counterexample: with a single backend whose DNS lookup fails,
`accept_one` ends in the explicit panic of `TcpRelayLocal::run`
("All proxy servers are failed!"), terminating the process, rather than
dropping the accept and continuing as the claim states. -/
theorem c4_counterexample_all_picks_fail_panics :
    accept_one (fun _ => none) [] ⟨[⟨[97, 98, 99], 8388⟩], 0⟩ =
      AcceptOutcome.panicked := by
  decide

/-- C4 amended: the acceptor retries a pick at most total() times, but
when all picks fail to resolve the run loop panics and the process
terminates, instead of dropping the accept and continuing: with an
empty cache and a DNS without answers the loop ends panicked, while a
pick whose backend resolves is spawned on the resolved IP with the
configured port. -/
theorem c4_amended_retry_then_panic :
    (∀ (dns : BackendDns) (rr : RoundRobin),
      (∀ nm, dns nm = none) → accept_one dns [] rr = .panicked) ∧
    (∀ (dns : BackendDns) (cache : List (List Nat × SocketAddr))
       (rr : RoundRobin) (cfg : ServerCfg) (rr2 : RoundRobin) (a : SocketAddr),
      rr.pick_server = (some cfg, rr2) → cacheLookup cache cfg.addr = none →
      dns cfg.addr = some a →
      accept_one dns cache rr = .spawned ⟨a.ip, cfg.port⟩) := by
  constructor
  · intro dns rr hdns
    suffices h : ∀ (fuel : Nat) (rr2 : RoundRobin),
        acceptLoop dns [] rr2 fuel = .panicked from h rr.total rr
    intro fuel
    induction fuel with
    | zero => intro rr2; rfl
    | succ m ih =>
      intro rr2
      rw [acceptLoop]
      cases hp : rr2.pick_server with
      | mk o rrNext =>
        cases o with
        | none => exact ih rrNext
        | some cfg => simp [cacheLookup, hdns, ih rrNext]
  · intro dns cache rr cfg rr2 a hp hc hd
    have hg : rr.servers.get? (rr.index % rr.servers.length) = some cfg := by
      have := congrArg Prod.fst hp
      simpa [RoundRobin.pick_server] using this
    have hlt : rr.index % rr.servers.length < rr.servers.length :=
      List.get?_eq_some.mp hg |>.1
    obtain ⟨m, hm⟩ : ∃ m, rr.total = m + 1 :=
      ⟨rr.servers.length - 1, by unfold RoundRobin.total; omega⟩
    unfold accept_one
    rw [hm, acceptLoop]
    simp only [hp, hc, hd]

/-- C4 witness: a dead single-server pool panics; one that resolves to
1.2.3.4 spawns the handler on 1.2.3.4 with the configured port 1080. -/
theorem c4_amended_retry_then_panic_witness :
    accept_one (fun _ => none) [] ⟨[⟨[97], 1080⟩], 0⟩ = AcceptOutcome.panicked ∧
    accept_one (fun _ => some ⟨IpAddr.v4 1 2 3 4, 9⟩) [] ⟨[⟨[97], 1080⟩], 0⟩ =
      AcceptOutcome.spawned ⟨IpAddr.v4 1 2 3 4, 1080⟩ := by
  constructor
  · exact c4_amended_retry_then_panic.1 (fun _ => none) ⟨[⟨[97], 1080⟩], 0⟩
      (fun _ => rfl)
  · exact c4_amended_retry_then_panic.2 (fun _ => some ⟨IpAddr.v4 1 2 3 4, 9⟩) []
      ⟨[⟨[97], 1080⟩], 0⟩ ⟨[97], 1080⟩ ⟨[⟨[97], 1080⟩], 1⟩ ⟨IpAddr.v4 1 2 3 4, 9⟩
      rfl rfl rfl

/-- C5: for a CONNECT request carrying destination `a`, once the
backend connect succeeds the handler writes to the backend first the IV
in cleartext and then, as the first payload through the encrypting
writer, exactly the destination address as received from the client:
the remote byte stream is the IV followed by the encryption of the
encoded address. -/
theorem c5_iv_then_encrypted_address (enc : List Nat → List Nat)
    (iv : List Nat) (ivSz : Nat) (sockname : SocketAddr) (a : Address)
    (rest : List Nat) (hiv : iv.length = ivSz) (ha : wfAddress a = true) :
    handle_client_connect enc iv sockname ([5, 1, 0] ++ (encodeAddress a ++ rest))
        ConnectResult.connOk =
      some (SessionCont.relaying,
        [WriteEvent.toRemote iv,
         WriteEvent.toClient (encodeTcpResponse .succeeded (.socketAddress sockname)),
         WriteEvent.toRemote (enc (encodeAddress a))]) ∧
    (remoteBytes
        [WriteEvent.toRemote iv,
         WriteEvent.toClient (encodeTcpResponse .succeeded (.socketAddress sockname)),
         WriteEvent.toRemote (enc (encodeAddress a))]).take ivSz = iv ∧
    (remoteBytes
        [WriteEvent.toRemote iv,
         WriteEvent.toClient (encodeTcpResponse .succeeded (.socketAddress sockname)),
         WriteEvent.toRemote (enc (encodeAddress a))]).drop ivSz =
      enc (encodeAddress a) := by
  refine ⟨?_, ?_, ?_⟩
  · simp only [handle_client_connect, tcpRequestReadFrom, List.cons_append,
      List.nil_append, readAddress_encodeAddress a rest ha, decodeCommand,
      handle_connect]
    simp
  · subst hiv
    simp [remoteBytes, List.take_left]
  · subst hiv
    simp [remoteBytes, List.drop_left]

/-- C5 witness: destination 93.184.216.34:80, IV [7, 9], identity
encryptor. -/
theorem c5_iv_then_encrypted_address_witness :
    handle_client_connect (fun bs => bs) [7, 9] ⟨IpAddr.v4 127 0 0 1, 1081⟩
        ([5, 1, 0] ++ (encodeAddress
          (Address.socketAddress ⟨IpAddr.v4 93 184 216 34, 80⟩) ++ []))
        ConnectResult.connOk =
      some (SessionCont.relaying,
        [WriteEvent.toRemote [7, 9],
         WriteEvent.toClient (encodeTcpResponse .succeeded
           (.socketAddress ⟨IpAddr.v4 127 0 0 1, 1081⟩)),
         WriteEvent.toRemote (encodeAddress
           (Address.socketAddress ⟨IpAddr.v4 93 184 216 34, 80⟩))]) := by
  exact (c5_iv_then_encrypted_address (fun bs => bs) [7, 9] 2
    ⟨IpAddr.v4 127 0 0 1, 1081⟩
    (Address.socketAddress ⟨IpAddr.v4 93 184 216 34, 80⟩) [] rfl (by decide)).1

/-- C6: when the backend connect fails, the client receives a SOCKS5
response with reply HostUnreachable for the kinds ConnectionRefused,
ConnectionReset and ConnectionAborted and NetworkUnreachable for every
other kind, and the handler then closes the session having written
nothing to the remote. -/
theorem c6_connect_error_reply (enc : List Nat → List Nat) (iv : List Nat)
    (sockname : SocketAddr) (addr : Address) (k : ErrorKind) :
    handle_connect enc iv sockname addr (.connErr k) =
      (SessionCont.closedNoRelay,
       [WriteEvent.toClient (encodeTcpResponse
         (if k = .connectionRefused ∨ k = .connectionReset ∨ k = .connectionAborted
          then Reply.hostUnreachable else Reply.networkUnreachable) addr)]) := by
  cases k <;> simp [handle_connect]

/-- C7: a handshake request whose method list lacks the no-auth method
0x00 is answered with [0x05, 0xFF] and the handshake fails with the
authentication-unsupported error; one containing 0x00 is answered with
[0x05, 0x00] and the handshake succeeds. -/
theorem c7_handshake_no_auth (methods rest : List Nat) :
    (SOCKS5_AUTH_METHOD_NONE ∉ methods →
      do_handshake (5 :: methods.length :: (methods ++ rest)) =
        (Except.error IoErr.authUnsupported, [5, 255])) ∧
    (SOCKS5_AUTH_METHOD_NONE ∈ methods →
      do_handshake (5 :: methods.length :: (methods ++ rest)) =
        (Except.ok (), [5, 0])) := by
  have hread : handshakeRequestReadFrom (5 :: methods.length :: (methods ++ rest)) =
      .ok (methods, rest) := by
    simp [handshakeRequestReadFrom, List.take_left, List.drop_left,
      List.length_append, Nat.le_add_right]
  constructor
  · intro hm
    unfold SOCKS5_AUTH_METHOD_NONE at hm
    simp [do_handshake, hread, hm, SOCKS5_AUTH_METHOD_NONE,
      SOCKS5_AUTH_METHOD_NOT_ACCEPTABLE]
  · intro hm
    unfold SOCKS5_AUTH_METHOD_NONE at hm
    simp [do_handshake, hread, hm, SOCKS5_AUTH_METHOD_NONE]

/-- C7 witness: the request 05 01 02 gets 05 FF and fails, the request
05 01 00 gets 05 00 and succeeds. -/
theorem c7_handshake_no_auth_witness :
    do_handshake [5, 1, 2] = (Except.error IoErr.authUnsupported, [5, 255]) ∧
    do_handshake [5, 1, 0] = (Except.ok (), [5, 0]) := by
  constructor
  · exact (c7_handshake_no_auth [2] []).1 (by decide)
  · exact (c7_handshake_no_auth [0] []).2 (by decide)

/-- C8: once the body of a decrypted datagram has been forwarded to the
resolved target, the handler awaits exactly one reply under the
deadline given by the configured timeout (5 when unset); a reply is
sent back to the original source as the encryption of the request
address followed by the reply bytes, under the same deadline; on expiry
the datagram is dropped with a timeout log record and nothing is sent
back. -/
theorem c8_udp_reply_deadline (dec : List Nat → Option (List Nat))
    (enc : List Nat → List Nat) (config_forbidden : List IpAddr) (dns : Dns)
    (timeout : Option Nat) (pkt : List Nat) (src : SocketAddr)
    (replyOpt : Option (List Nat × Nat)) (payload : List Nat) (addr : Address)
    (n : Nat) (target : SocketAddr)
    (h1 : dec pkt = some payload) (h2 : readAddress payload = some (addr, n))
    (h3 : resolve_remote_addr config_forbidden dns addr = .ok target) :
    ((udpHandleDatagram dec enc config_forbidden dns timeout pkt src replyOpt).filter
        (fun e => match e with | UdpEvent.awaitReply _ => true | _ => false)) =
      [UdpEvent.awaitReply (timeout.getD 5)] ∧
    (∀ buf m, replyOpt = some (buf, m) →
      udpHandleDatagram dec enc config_forbidden dns timeout pkt src replyOpt =
        [UdpEvent.sendToTarget target (payload.drop n),
         UdpEvent.awaitReply (timeout.getD 5),
         UdpEvent.sendBack src (enc (encodeAddress addr ++ buf.take m))
           (timeout.getD 5)]) ∧
    (replyOpt = none →
      udpHandleDatagram dec enc config_forbidden dns timeout pkt src replyOpt =
        [UdpEvent.sendToTarget target (payload.drop n),
         UdpEvent.awaitReply (timeout.getD 5),
         UdpEvent.logTimeout, UdpEvent.logError IoErr.timedOut]) := by
  have hbase : udpHandleDatagram dec enc config_forbidden dns timeout pkt src replyOpt =
      UdpEvent.sendToTarget target (payload.drop n) ::
      UdpEvent.awaitReply (timeout.getD 5) ::
      (match replyOpt with
       | none => [UdpEvent.logTimeout, UdpEvent.logError IoErr.timedOut]
       | some (buf, m) =>
         [UdpEvent.sendBack src (enc (encodeAddress addr ++ buf.take m))
           (timeout.getD 5)]) := by
    simp only [udpHandleDatagram, h1, h2, h3]
  refine ⟨?_, ?_, ?_⟩
  · rw [hbase]
    cases replyOpt with
    | none => simp [List.filter]
    | some p =>
      cases p
      simp [List.filter]
  · intro buf m hr
    subst hr
    rw [hbase]
  · intro hr
    subst hr
    rw [hbase]

/-- C8 witness: request address 1.2.3.4:53, decrypted body [9, 9],
no configured timeout, reply [5, 6, 7] of length 2. -/
theorem c8_udp_reply_deadline_witness :
    udpHandleDatagram (fun _ => some [1, 1, 2, 3, 4, 0, 53, 9, 9])
        (fun bs => bs) [] (fun _ _ => []) none [0]
        ⟨IpAddr.v4 127 0 0 1, 7777⟩ (some ([5, 6, 7], 2)) =
      [UdpEvent.sendToTarget ⟨IpAddr.v4 1 2 3 4, 53⟩ [9, 9],
       UdpEvent.awaitReply 5,
       UdpEvent.sendBack ⟨IpAddr.v4 127 0 0 1, 7777⟩ [1, 1, 2, 3, 4, 0, 53, 5, 6] 5] := by
  have h := c8_udp_reply_deadline (fun _ => some [1, 1, 2, 3, 4, 0, 53, 9, 9])
    (fun bs => bs) [] (fun _ _ => []) none [0] ⟨IpAddr.v4 127 0 0 1, 7777⟩
    (some ([5, 6, 7], 2)) [1, 1, 2, 3, 4, 0, 53, 9, 9]
    (Address.socketAddress ⟨IpAddr.v4 1 2 3 4, 53⟩) 7 ⟨IpAddr.v4 1 2 3 4, 53⟩
    rfl (by decide) rfl
  simpa [encodeAddress, encodePort] using h.2.1 [5, 6, 7] 2 rfl

/-- C9: a datagram whose decryption is an encoded SOCKS5 address
followed by a body forwards exactly that body to the resolved target:
the first action of the handler sends the decrypted bytes with the
parsed address header removed, unchanged. -/
theorem c9_udp_forward_strips_header (dec : List Nat → Option (List Nat))
    (enc : List Nat → List Nat) (config_forbidden : List IpAddr) (dns : Dns)
    (timeout : Option Nat) (pkt : List Nat) (src : SocketAddr)
    (replyOpt : Option (List Nat × Nat)) (a : Address) (rest : List Nat)
    (target : SocketAddr)
    (ha : wfAddress a = true)
    (h1 : dec pkt = some (encodeAddress a ++ rest))
    (h3 : resolve_remote_addr config_forbidden dns a = .ok target) :
    (udpHandleDatagram dec enc config_forbidden dns timeout pkt src replyOpt).head? =
      some (UdpEvent.sendToTarget target rest) := by
  simp only [udpHandleDatagram, h1, readAddress_encodeAddress a rest ha, h3]
  simp [List.drop_left]

/-- C9 witness: decrypted datagram for 10.1.1.1:53 with body [77]. -/
theorem c9_udp_forward_strips_header_witness :
    (udpHandleDatagram (fun _ => some [1, 10, 1, 1, 1, 0, 53, 77])
        (fun bs => bs) [] (fun _ _ => []) none [0]
        ⟨IpAddr.v4 127 0 0 1, 7777⟩ none).head? =
      some (UdpEvent.sendToTarget ⟨IpAddr.v4 10 1 1 1, 53⟩ [77]) := by
  have h := c9_udp_forward_strips_header (fun _ => some [1, 10, 1, 1, 1, 0, 53, 77])
    (fun bs => bs) [] (fun _ _ => []) none [0] ⟨IpAddr.v4 127 0 0 1, 7777⟩ none
    (Address.socketAddress ⟨IpAddr.v4 10 1 1 1, 53⟩) [77] ⟨IpAddr.v4 10 1 1 1, 53⟩
    (by decide) (by simp [encodeAddress, encodePort]) rfl
  exact h

/-- C10: `new_stream` is defined only for stream-category methods (a
non-stream method fails the assertion and yields no variant); for every
stream method it totally returns a variant whose arm is the one the
dispatch assigns (Table, Dummy, ChaCha20/Salsa20 to CryptoCipher,
RC4-MD5, every other stream method to OpenSSLCipher), and the IV is
ignored by the Table and Dummy arms. -/
theorem c10_new_stream_dispatch :
    (∀ (t : CipherType) (key iv : List Nat) (mode : CryptoMode),
      t.category ≠ CipherCategory.stream → new_stream t key iv mode = none) ∧
    (∀ (t : CipherType) (key iv : List Nat) (mode : CryptoMode),
      t.category = CipherCategory.stream →
      (new_stream t key iv mode).map StreamCipherVariant.arm =
        some (claimedArmOf t)) ∧
    (∀ (key iv1 iv2 : List Nat) (mode : CryptoMode),
      new_stream CipherType.table key iv1 mode =
        new_stream CipherType.table key iv2 mode ∧
      new_stream CipherType.dummy key iv1 mode =
        new_stream CipherType.dummy key iv2 mode) := by
  refine ⟨?_, ?_, fun key iv1 iv2 mode => ⟨rfl, rfl⟩⟩
  · intro t key iv mode h
    cases t <;> first
      | exact absurd rfl h
      | rfl
  · intro t key iv mode h
    cases t <;> first
      | rfl
      | exact absurd h (by decide)

/-- C10 witness: the AEAD method yields no variant, ChaCha20 yields the
CryptoCipher arm, and the table cipher ignores the IV. -/
theorem c10_new_stream_dispatch_witness :
    new_stream CipherType.aes256Gcm [] [] CryptoMode.encrypt = none ∧
    (new_stream CipherType.chacha20 [1] [2] CryptoMode.encrypt).map
      StreamCipherVariant.arm = some CipherArm.cryptoArm ∧
    new_stream CipherType.table [1] [2] CryptoMode.encrypt =
      new_stream CipherType.table [1] [3] CryptoMode.encrypt := by
  refine ⟨c10_new_stream_dispatch.1 CipherType.aes256Gcm [] [] CryptoMode.encrypt
      (by decide), ?_,
    (c10_new_stream_dispatch.2.2 [1] [2] [3] CryptoMode.encrypt).1⟩
  exact c10_new_stream_dispatch.2.1 CipherType.chacha20 [1] [2] CryptoMode.encrypt
    (by decide)

end Shadowsocks
